import Mathlib

/-!
Verification of the Zoho lead-tag proxy (functions/src/index.ts).

The development shallowly embeds the two layers of the program:

* the token lifecycle / authenticated request executor
  (`getAccessToken`, `refreshAccessToken`, `makeApiRequest`), modelled as
  pure functions over an explicit credential record and an environment
  supplying the OAuth token endpoint and the HTTP transport; the model
  returns, besides the result, the list of token-exchange calls performed;
* the tag-filter workflows (`modifyLeadByLeadId`,
  `modifyLeadsByPhoneAndTag`), modelled over an environment supplying the
  three CRM operations; the model returns the ordered list of
  `updateLeadTag` calls issued together with the status or error.

JavaScript conventions are made explicit: an absent or empty string field
is the empty string (falsy), `EXPIRY_TIME || 0` is `expiryOrZero`, an
absent or null `Tag` field is `Option.getD []`, and a thrown exception is
`Except.error`.
-/

/-- Credential record stored at `/configurations/zohoConfig`
(interface `ZohoCredentials` in the source).  String fields use `""` for
the JavaScript absent/empty (falsy) value; `EXPIRY_TIME` is `none` when
the field is missing. -/
structure ZohoCredentials where
  CLIENT_ID : String
  CLIENT_SECRET : String
  AUTHORIZATION_CODE : String
  ACCESS_TOKEN : String
  REFRESH_TOKEN : String
  ACCOUNTS_URL : String
  API_DOMAIN : String
  EXPIRY_TIME : Option Nat
deriving DecidableEq, Repr

/-- Response of the OAuth token endpoint (interface `AccessTokenResponse`). -/
structure AccessTokenResponse where
  access_token : String
  refresh_token : String
  api_domain : String
  token_type : String
  expires_in : Nat
deriving DecidableEq, Repr

/-- Request body of the inbound endpoint (interface `ReqParams`). -/
structure ReqParams where
  phone : String
  tag : String
  id : String
  tagFilter : String
deriving DecidableEq, Repr

/-- Fixed redirect URI constant of the source. -/
def redirectUri : String := "https://www.zoho.com"

/-- Fixed CRM API base URL constant of the source. -/
def apiUrl : String := "https://www.zohoapis.com/crm/v5"

/-- Fixed token endpoint URL constant of the source. -/
def tokenUrl : String := "https://accounts.zoho.com/oauth/v2/token"

/-- Form payload POSTed by `getAccessToken` (authorization-code grant). -/
structure AuthCodePayload where
  client_id : String
  client_secret : String
  redirect_uri : String
  code : String
  grant_type : String
deriving DecidableEq, Repr

/-- Form payload POSTed by `refreshAccessToken` (refresh-token grant). -/
structure RefreshPayload where
  client_id : String
  client_secret : String
  refresh_token : String
  grant_type : String
deriving DecidableEq, Repr

/-- A call to the token endpoint: one of the two grant-type payloads. -/
inductive ExchangePayload
  | authCode (p : AuthCodePayload)
  | refresh (p : RefreshPayload)
deriving DecidableEq, Repr

/-- The payload built by `getAccessToken` from the credential record:
both `client_id` and `client_secret` are set to `dbData.CLIENT_ID`
(lines 70-71 of the source). -/
def authCodePayload (dbData : ZohoCredentials) : AuthCodePayload :=
  { client_id := dbData.CLIENT_ID
    client_secret := dbData.CLIENT_ID
    redirect_uri := redirectUri
    code := dbData.AUTHORIZATION_CODE
    grant_type := "authorization_code" }

/-- The payload built by `refreshAccessToken` from the credential record. -/
def refreshPayload (dbData : ZohoCredentials) : RefreshPayload :=
  { client_id := dbData.CLIENT_ID
    client_secret := dbData.CLIENT_SECRET
    refresh_token := dbData.REFRESH_TOKEN
    grant_type := "refresh_token" }

/-- Axios request config after `generateApiRequestConfig` merged the token
into the caller's options.  `params` models the query-parameter object. -/
structure ApiRequestConfig where
  method : String
  url : String
  params : List (String × String)
  baseURL : String
  contentType : String
  authorization : String
deriving DecidableEq, Repr

/-- Caller-supplied axios options (method, relative url, query params). -/
structure RequestOptions where
  method : String
  url : String
  params : List (String × String)
deriving DecidableEq, Repr

/-- Source `generateApiRequestConfig`: spreads the options and adds the
fixed base URL, the JSON content type and the `Zoho-oauthtoken` header. -/
def generateApiRequestConfig (options : RequestOptions) (token : String) :
    ApiRequestConfig :=
  { method := options.method
    url := options.url
    params := options.params
    baseURL := apiUrl
    contentType := "application/json"
    authorization := "Zoho-oauthtoken " ++ token }

/-- Environment of the executor: the current time (`Date.now()`), the
token endpoint (`axios.postForm` to `tokenUrl`) and the HTTP transport
(`axios(config)`), both of which may fail with an error message. -/
structure Env where
  now : Nat
  tokenEndpoint : ExchangePayload → Except String AccessTokenResponse
  httpCall : ApiRequestConfig → Except String String

/-- Source `getAccessToken`: POST the authorization-code payload; on
success merge `ACCESS_TOKEN`, `REFRESH_TOKEN` and
`EXPIRY_TIME = now + expires_in * 1000` into the stored record
(`updateDbData` merges only the given fields); a failure is rethrown. -/
def getAccessToken (env : Env) (dbData : ZohoCredentials) :
    Except String ZohoCredentials :=
  match env.tokenEndpoint (.authCode (authCodePayload dbData)) with
  | .error e => .error e
  | .ok response =>
      .ok { dbData with
              ACCESS_TOKEN := response.access_token
              REFRESH_TOKEN := response.refresh_token
              EXPIRY_TIME := some (env.now + response.expires_in * 1000) }

/-- Source `refreshAccessToken`: POST the refresh-token payload; on
success merge only `ACCESS_TOKEN` and `EXPIRY_TIME` into the stored
record (`REFRESH_TOKEN` is not among the written fields). -/
def refreshAccessToken (env : Env) (dbData : ZohoCredentials) :
    Except String ZohoCredentials :=
  match env.tokenEndpoint (.refresh (refreshPayload dbData)) with
  | .error e => .error e
  | .ok response =>
      .ok { dbData with
              ACCESS_TOKEN := response.access_token
              EXPIRY_TIME := some (env.now + response.expires_in * 1000) }

/-- JavaScript `dbData.EXPIRY_TIME || 0`: a missing field reads as `0`
(and so does an explicit `0`). -/
def expiryOrZero (dbData : ZohoCredentials) : Nat :=
  match dbData.EXPIRY_TIME with
  | none => 0
  | some t => t

/-- Observable outcome of one `makeApiRequest` call: the token-exchange
calls performed (in order, before the API request), the config handed to
the transport when it was reached, and the response or rethrown error. -/
structure ApiOutcome where
  exchanges : List ExchangePayload
  request : Option ApiRequestConfig
  result : Except String String
deriving Repr

/-- Source `makeApiRequest`: read the record; if
`!ACCESS_TOKEN || Date.now() >= (EXPIRY_TIME || 0)` perform one exchange
(`getAccessToken` when `REFRESH_TOKEN` is falsy, else
`refreshAccessToken`); re-read the record and call the transport with the
config built from the latest `ACCESS_TOKEN`.  The store is single-record,
so re-reading yields the just-written record. -/
def makeApiRequest (env : Env) (db : ZohoCredentials) (options : RequestOptions) :
    ApiOutcome :=
  if db.ACCESS_TOKEN = "" ∨ expiryOrZero db ≤ env.now then
    if db.REFRESH_TOKEN = "" then
      match getAccessToken env db with
      | .error e => ⟨[.authCode (authCodePayload db)], none, .error e⟩
      | .ok latest =>
          let config := generateApiRequestConfig options latest.ACCESS_TOKEN
          ⟨[.authCode (authCodePayload db)], some config, env.httpCall config⟩
    else
      match refreshAccessToken env db with
      | .error e => ⟨[.refresh (refreshPayload db)], none, .error e⟩
      | .ok latest =>
          let config := generateApiRequestConfig options latest.ACCESS_TOKEN
          ⟨[.refresh (refreshPayload db)], some config, env.httpCall config⟩
  else
    let config := generateApiRequestConfig options db.ACCESS_TOKEN
    ⟨[], some config, env.httpCall config⟩

/-- CRM tag entity: an object with a `name` field. -/
structure Tag where
  name : String
deriving DecidableEq, Repr

/-- CRM lead as consumed by the workflows: id, phone, full name and the
tag list; `Tag := none` models an absent or null `Tag` field
(`lead.Tag || []`). -/
structure Lead where
  id : String
  Phone : String
  Full_Name : String
  Tag : Option (List Tag)
deriving DecidableEq, Repr

/-- Environment of the workflows: the three lead operations of the source
(`findByLeadId`, `findByPhone`, `updateLeadTag`).  A find returns the
`data` field of the API envelope (`none` when the field is absent) or the
rethrown error; an update returns unit or the rethrown error. -/
structure CrmEnv where
  findByLeadId : String → Except String (Option (List Lead))
  findByPhone : String → Except String (Option (List Lead))
  updateLeadTag : String → List Tag → Except String Unit

/-- JavaScript `s.startsWith(patt)`, modelled as a prefix test on the
character lists of the two strings. -/
def jsStartsWith (s patt : String) : Bool :=
  patt.data.isPrefixOf s.data

/-- The tag rewrite shared by both workflows:
`tags.filter(t => !t.name.startsWith(tagFilter))` then push
`{ name: tag }` at the end. -/
def updatedTagsFor (tags : List Tag) (tag tagFilter : String) : List Tag :=
  (tags.filter fun t => !(jsStartsWith t.name tagFilter)) ++ [{ name := tag }]

/-- The `updateLeadTag` call the workflows issue for one lead: the lead's
id together with its rewritten tag list. -/
def leadUpdateCall (req : ReqParams) (lead : Lead) : String × List Tag :=
  (lead.id, updatedTagsFor (lead.Tag.getD []) req.tag req.tagFilter)

/-- Source `modifyLeadByLeadId`: fetch the lead by id; when `data?.[0]`
is falsy return `400`; otherwise rewrite the first lead's tags and issue
one `updateLeadTag`.  The first component is the ordered list of issued
`updateLeadTag` calls (lead id and tags written). -/
def modifyLeadByLeadId (env : CrmEnv) (reqBody : ReqParams) :
    List (String × List Tag) × Except String Nat :=
  match env.findByLeadId reqBody.id with
  | .error e => ([], .error e)
  | .ok none => ([], .ok 400)
  | .ok (some []) => ([], .ok 400)
  | .ok (some (lead :: _)) =>
      let updatedTags := updatedTagsFor (lead.Tag.getD []) reqBody.tag reqBody.tagFilter
      match env.updateLeadTag lead.id updatedTags with
      | .error e => ([(lead.id, updatedTags)], .error e)
      | .ok _ => ([(lead.id, updatedTags)], .ok 200)

/-- The `for (const lead of data)` loop of `modifyLeadsByPhoneAndTag`:
rewrite and update each lead in order; the first failing update aborts
the loop and propagates (already-issued calls stay in the trace). -/
def modifyLeadsLoop (env : CrmEnv) (reqBody : ReqParams) :
    List Lead → List (String × List Tag) × Except String Nat
  | [] => ([], .ok 200)
  | lead :: rest =>
      let updatedTags := updatedTagsFor (lead.Tag.getD []) reqBody.tag reqBody.tagFilter
      match env.updateLeadTag lead.id updatedTags with
      | .error e => ([(lead.id, updatedTags)], .error e)
      | .ok _ =>
          let r := modifyLeadsLoop env reqBody rest
          ((lead.id, updatedTags) :: r.1, r.2)

/-- Source `modifyLeadsByPhoneAndTag`: search by phone; when the `data`
field is absent (`!data`) return `400`; otherwise run the sequential
per-lead update loop. -/
def modifyLeadsByPhoneAndTag (env : CrmEnv) (reqBody : ReqParams) :
    List (String × List Tag) × Except String Nat :=
  match env.findByPhone reqBody.phone with
  | .error e => ([], .error e)
  | .ok none => ([], .ok 400)
  | .ok (some data) => modifyLeadsLoop env reqBody data

/-! Concrete records used by the witnesses. -/

/-- Sample credential record with distinct `CLIENT_ID` and `CLIENT_SECRET`
and a token valid until time `1000`. -/
def dbExample : ZohoCredentials :=
  { CLIENT_ID := "cid"
    CLIENT_SECRET := "csecret"
    AUTHORIZATION_CODE := "authcode"
    ACCESS_TOKEN := "tok"
    REFRESH_TOKEN := ""
    ACCOUNTS_URL := "https://accounts.zoho.com"
    API_DOMAIN := "https://www.zohoapis.com"
    EXPIRY_TIME := some 1000 }

/-- Sample credential record whose token expires exactly at time `500`
(the boundary case) and which holds a refresh token. -/
def dbExpired : ZohoCredentials :=
  { dbExample with REFRESH_TOKEN := "reftok", EXPIRY_TIME := some 500 }

/-- Sample credential record with a missing `EXPIRY_TIME` and no refresh
token. -/
def dbNoExpiry : ZohoCredentials :=
  { dbExample with EXPIRY_TIME := none }

/-- Sample token-endpoint response. -/
def respExample : AccessTokenResponse :=
  { access_token := "newtok"
    refresh_token := "newref"
    api_domain := "https://www.zohoapis.com"
    token_type := "Bearer"
    expires_in := 3600 }

/-- Sample executor environment at time `500` whose token endpoint always
succeeds with `respExample`. -/
def envExample : Env :=
  { now := 500
    tokenEndpoint := fun _ => .ok respExample
    httpCall := fun _ => .ok "body" }

/-- Sample caller options. -/
def optionsExample : RequestOptions :=
  { method := "GET", url := "/Leads/123", params := [] }

/-- C4: in the authorization-code exchange the form payload carries the
record's `CLIENT_ID` value in both its `client_id` and its
`client_secret` field, so a `CLIENT_SECRET` value distinct from
`CLIENT_ID` is never sent on this path. -/
theorem authCodePayload_duplicates_client_id (db : ZohoCredentials) :
    (authCodePayload db).client_id = db.CLIENT_ID ∧
    (authCodePayload db).client_secret = db.CLIENT_ID ∧
    (authCodePayload db).grant_type = "authorization_code" ∧
    (db.CLIENT_SECRET ≠ db.CLIENT_ID →
      (authCodePayload db).client_secret ≠ db.CLIENT_SECRET) := by
  refine ⟨rfl, rfl, rfl, fun h => ?_⟩
  simpa [authCodePayload] using fun hcontra => h hcontra.symm

/-- Witness for `authCodePayload_duplicates_client_id` at `dbExample`,
whose `CLIENT_SECRET` differs from its `CLIENT_ID`. -/
theorem authCodePayload_duplicates_client_id_witness :
    (authCodePayload dbExample).client_secret ≠ dbExample.CLIENT_SECRET :=
  (authCodePayload_duplicates_client_id dbExample).2.2.2 (by decide)

/-- C8: a successful refresh exchange writes exactly `ACCESS_TOKEN` and
`EXPIRY_TIME = now + expires_in * 1000` into the record, leaving
`REFRESH_TOKEN` and every other field unchanged; a successful
authorization-code exchange writes exactly `ACCESS_TOKEN`,
`REFRESH_TOKEN` and `EXPIRY_TIME`, leaving the remaining fields
unchanged. -/
theorem exchange_update_frame (env : Env) (db : ZohoCredentials) :
    (∀ r, env.tokenEndpoint (.refresh (refreshPayload db)) = .ok r →
      refreshAccessToken env db =
        .ok { db with ACCESS_TOKEN := r.access_token
                      EXPIRY_TIME := some (env.now + r.expires_in * 1000) }) ∧
    (∀ r, env.tokenEndpoint (.authCode (authCodePayload db)) = .ok r →
      getAccessToken env db =
        .ok { db with ACCESS_TOKEN := r.access_token
                      REFRESH_TOKEN := r.refresh_token
                      EXPIRY_TIME := some (env.now + r.expires_in * 1000) }) := by
  constructor
  · intro r h
    simp [refreshAccessToken, h]
  · intro r h
    simp [getAccessToken, h]

/-- Witness for `exchange_update_frame` at `envExample` and `dbExpired`. -/
theorem exchange_update_frame_witness :
    refreshAccessToken envExample dbExpired =
      .ok { dbExpired with
              ACCESS_TOKEN := respExample.access_token
              EXPIRY_TIME := some (envExample.now + respExample.expires_in * 1000) } :=
  (exchange_update_frame envExample dbExpired).1 respExample rfl

/-- C1: for a record whose (missing-as-zero) expiry time is at most the
current time — equality at the boundary included — `makeApiRequest`
performs exactly one token-exchange call before the API request, the
refresh exchange when `REFRESH_TOKEN` is present and the
authorization-code exchange when it is absent. -/
theorem makeApiRequest_expired_single_exchange (env : Env) (db : ZohoCredentials)
    (options : RequestOptions) (h : expiryOrZero db ≤ env.now) :
    (makeApiRequest env db options).exchanges =
      (if db.REFRESH_TOKEN = "" then [ExchangePayload.authCode (authCodePayload db)]
       else [ExchangePayload.refresh (refreshPayload db)]) ∧
    (makeApiRequest env db options).exchanges.length = 1 := by
  have hc : db.ACCESS_TOKEN = "" ∨ expiryOrZero db ≤ env.now := Or.inr h
  unfold makeApiRequest
  rw [if_pos hc]
  by_cases hr : db.REFRESH_TOKEN = ""
  · rw [if_pos hr, if_pos hr]
    cases getAccessToken env db <;> simp
  · rw [if_neg hr, if_neg hr]
    cases refreshAccessToken env db <;> simp

/-- Witness for `makeApiRequest_expired_single_exchange` at the exact
expiry boundary (`EXPIRY_TIME = some 500`, `now = 500`) with a refresh
token present. -/
theorem makeApiRequest_expired_single_exchange_witness :
    expiryOrZero dbExpired ≤ envExample.now ∧
    ((makeApiRequest envExample dbExpired optionsExample).exchanges =
      (if dbExpired.REFRESH_TOKEN = ""
       then [ExchangePayload.authCode (authCodePayload dbExpired)]
       else [ExchangePayload.refresh (refreshPayload dbExpired)]) ∧
     (makeApiRequest envExample dbExpired optionsExample).exchanges.length = 1) :=
  ⟨by decide,
   makeApiRequest_expired_single_exchange envExample dbExpired optionsExample (by decide)⟩

/-- C7: for a record with `expiryOrZero` strictly above the current time
and a non-empty `ACCESS_TOKEN`, `makeApiRequest` performs no
token-exchange call and hands the transport a config whose
`Authorization` header carries the stored token. -/
theorem makeApiRequest_valid_token_no_exchange (env : Env) (db : ZohoCredentials)
    (options : RequestOptions) (hexp : env.now < expiryOrZero db)
    (htok : db.ACCESS_TOKEN ≠ "") :
    (makeApiRequest env db options).exchanges = [] ∧
    (makeApiRequest env db options).request =
      some (generateApiRequestConfig options db.ACCESS_TOKEN) ∧
    (generateApiRequestConfig options db.ACCESS_TOKEN).authorization =
      "Zoho-oauthtoken " ++ db.ACCESS_TOKEN := by
  have hc : ¬(db.ACCESS_TOKEN = "" ∨ expiryOrZero db ≤ env.now) := by
    push_neg
    exact ⟨htok, hexp⟩
  unfold makeApiRequest
  rw [if_neg hc]
  exact ⟨rfl, rfl, rfl⟩

/-- Witness for `makeApiRequest_valid_token_no_exchange` at `dbExample`
(token valid until `1000`, current time `500`). -/
theorem makeApiRequest_valid_token_no_exchange_witness :
    envExample.now < expiryOrZero dbExample ∧ dbExample.ACCESS_TOKEN ≠ "" ∧
    ((makeApiRequest envExample dbExample optionsExample).exchanges = [] ∧
     (makeApiRequest envExample dbExample optionsExample).request =
       some (generateApiRequestConfig optionsExample dbExample.ACCESS_TOKEN) ∧
     (generateApiRequestConfig optionsExample dbExample.ACCESS_TOKEN).authorization =
       "Zoho-oauthtoken " ++ dbExample.ACCESS_TOKEN) :=
  ⟨by decide, by decide,
   makeApiRequest_valid_token_no_exchange envExample dbExample optionsExample
     (by decide) (by decide)⟩

/-! Concrete CRM data used by the workflow witnesses. -/

/-- The lead of the spec's filter-correctness example: tags
`status:new` and `source:web`. -/
def leadExample : Lead :=
  { id := "L1"
    Phone := "5551234"
    Full_Name := "Jane Doe"
    Tag := some [{ name := "status:new" }, { name := "source:web" }] }

/-- A lead with an absent `Tag` field. -/
def leadNoTags : Lead :=
  { id := "L2", Phone := "5559", Full_Name := "John Roe", Tag := none }

/-- Request of the spec's filter-correctness example. -/
def reqExample : ReqParams :=
  { phone := "555", tag := "status:contacted", id := "L1", tagFilter := "status:" }

/-- CRM environment whose finds return `leadExample` and whose updates
all succeed. -/
def crmEnvOk : CrmEnv :=
  { findByLeadId := fun _ => .ok (some [leadExample])
    findByPhone := fun _ => .ok (some [leadExample])
    updateLeadTag := fun _ _ => .ok () }

/-- CRM environment whose finds return a present but empty `data` array. -/
def crmEnvEmpty : CrmEnv :=
  { findByLeadId := fun _ => .ok (some [])
    findByPhone := fun _ => .ok (some [])
    updateLeadTag := fun _ _ => .ok () }

/-- CRM environment whose finds return an envelope with no `data` field. -/
def crmEnvNoData : CrmEnv :=
  { findByLeadId := fun _ => .ok none
    findByPhone := fun _ => .ok none
    updateLeadTag := fun _ _ => .ok () }

/-- CRM environment whose finds return the tagless lead `leadNoTags`. -/
def crmEnvNoTags : CrmEnv :=
  { findByLeadId := fun _ => .ok (some [leadNoTags])
    findByPhone := fun _ => .ok (some [leadNoTags])
    updateLeadTag := fun _ _ => .ok () }

/-- The by-id workflow issues exactly one `updateLeadTag` call, on the
first fetched lead, writing its rewritten tag list. -/
theorem modifyLeadByLeadId_trace (env : CrmEnv) (req : ReqParams) (lead : Lead)
    (rest : List Lead) (h : env.findByLeadId req.id = .ok (some (lead :: rest))) :
    (modifyLeadByLeadId env req).1 =
      [(lead.id, updatedTagsFor (lead.Tag.getD []) req.tag req.tagFilter)] := by
  unfold modifyLeadByLeadId
  rw [h]
  rcases hu : env.updateLeadTag lead.id
      (updatedTagsFor (lead.Tag.getD []) req.tag req.tagFilter) with e | u <;>
    simp [hu]

/-- C2: the tag list written back by the by-id workflow is the fetched
lead's tag list with every tag whose name starts with `tagFilter` removed
(all of them), the relative order of the survivors preserved (the
filtered list is a sublist of the original), and the single tag
`name := tag` appended at the end with no deduplication. -/
theorem modifyLeadByLeadId_writes_filter_append (env : CrmEnv) (req : ReqParams)
    (lead : Lead) (rest : List Lead)
    (h : env.findByLeadId req.id = .ok (some (lead :: rest))) :
    (modifyLeadByLeadId env req).1 =
      [(lead.id,
        ((lead.Tag.getD []).filter fun t => !(jsStartsWith t.name req.tagFilter)) ++
          [{ name := req.tag }])] ∧
    ((lead.Tag.getD []).filter fun t => !(jsStartsWith t.name req.tagFilter)).Sublist
      (lead.Tag.getD []) ∧
    ∀ t ∈ lead.Tag.getD [], jsStartsWith t.name req.tagFilter = true →
      t ∉ (lead.Tag.getD []).filter fun t => !(jsStartsWith t.name req.tagFilter) := by
  refine ⟨modifyLeadByLeadId_trace env req lead rest h, List.filter_sublist _, ?_⟩
  intro t _ hstart hmem
  have := (List.mem_filter.mp hmem).2
  rw [hstart] at this
  simp at this

/-- Witness for `modifyLeadByLeadId_writes_filter_append` at the spec's
example: tags `status:new`, `source:web` with filter `status:` and new
tag `status:contacted` yield `source:web`, `status:contacted`. -/
theorem modifyLeadByLeadId_writes_filter_append_witness :
    (modifyLeadByLeadId crmEnvOk reqExample).1 =
      [("L1", [{ name := "source:web" }, { name := "status:contacted" }])] := by
  have h :=
    (modifyLeadByLeadId_writes_filter_append crmEnvOk reqExample leadExample [] rfl).1
  rw [h]
  decide

/-- C6: when `findByLeadId` yields an empty or absent `data` array, the
by-id workflow returns `400` as a value (no exception) and issues no
`updateLeadTag` call. -/
theorem modifyLeadByLeadId_not_found (env : CrmEnv) (req : ReqParams)
    (h : env.findByLeadId req.id = .ok none ∨
         env.findByLeadId req.id = .ok (some [])) :
    modifyLeadByLeadId env req = ([], .ok 400) := by
  unfold modifyLeadByLeadId
  rcases h with h | h <;> rw [h]

/-- Witness for `modifyLeadByLeadId_not_found` at an environment whose
lead search returns an empty `data` array. -/
theorem modifyLeadByLeadId_not_found_witness :
    modifyLeadByLeadId crmEnvEmpty reqExample = ([], .ok 400) :=
  modifyLeadByLeadId_not_found crmEnvEmpty reqExample (Or.inr rfl)

/-- The per-lead update loop never produces the not-found status: it ends
in `200` or in a propagated error. -/
theorem modifyLeadsLoop_never_400 (env : CrmEnv) (req : ReqParams)
    (leads : List Lead) : (modifyLeadsLoop env req leads).2 ≠ .ok 400 := by
  induction leads with
  | nil => simp [modifyLeadsLoop]
  | cons lead rest ih =>
      unfold modifyLeadsLoop
      rcases hu : env.updateLeadTag lead.id
          (updatedTagsFor (lead.Tag.getD []) req.tag req.tagFilter) with e | u
      · simp [hu]
      · simpa [hu] using ih

/-- C9: the by-phone workflow returns `400` exactly when the search
envelope has no `data` field; a present but empty `data` array yields
`200` with no `updateLeadTag` call issued. -/
theorem modifyLeadsByPhoneAndTag_absent_vs_empty (env : CrmEnv) (req : ReqParams) :
    (env.findByPhone req.phone = .ok none →
      modifyLeadsByPhoneAndTag env req = ([], .ok 400)) ∧
    (env.findByPhone req.phone = .ok (some []) →
      modifyLeadsByPhoneAndTag env req = ([], .ok 200)) ∧
    ((modifyLeadsByPhoneAndTag env req).2 = .ok 400 →
      env.findByPhone req.phone = .ok none) := by
  refine ⟨fun h => ?_, fun h => ?_, fun h => ?_⟩
  · unfold modifyLeadsByPhoneAndTag
    rw [h]
  · unfold modifyLeadsByPhoneAndTag
    rw [h]
    rfl
  · unfold modifyLeadsByPhoneAndTag at h
    rcases hf : env.findByPhone req.phone with e | od
    · rw [hf] at h
      simp at h
    · rcases od with _ | leads
      · rfl
      · rw [hf] at h
        exact absurd h (modifyLeadsLoop_never_400 env req leads)

/-- Witness for `modifyLeadsByPhoneAndTag_absent_vs_empty`: an absent
`data` field yields `400`; an empty `data` array yields `200` with an
empty call trace. -/
theorem modifyLeadsByPhoneAndTag_absent_vs_empty_witness :
    modifyLeadsByPhoneAndTag crmEnvNoData reqExample = ([], .ok 400) ∧
    modifyLeadsByPhoneAndTag crmEnvEmpty reqExample = ([], .ok 200) :=
  ⟨(modifyLeadsByPhoneAndTag_absent_vs_empty crmEnvNoData reqExample).1 rfl,
   (modifyLeadsByPhoneAndTag_absent_vs_empty crmEnvEmpty reqExample).2.1 rfl⟩

/-- C10: a lead whose `Tag` field is absent or null is treated as having
an empty tag list by both workflows, so the written tag list is exactly
the single tag `name := tag`. -/
theorem workflows_missing_tags_as_empty (env : CrmEnv) (req : ReqParams)
    (lead : Lead) (rest : List Lead) (hTag : lead.Tag = none) :
    (env.findByLeadId req.id = .ok (some (lead :: rest)) →
      (modifyLeadByLeadId env req).1 = [(lead.id, [{ name := req.tag }])]) ∧
    (env.findByPhone req.phone = .ok (some (lead :: rest)) →
      (modifyLeadsByPhoneAndTag env req).1.head? =
        some (lead.id, [{ name := req.tag }])) := by
  have hupd : updatedTagsFor (lead.Tag.getD []) req.tag req.tagFilter =
      [{ name := req.tag }] := by
    rw [hTag]
    rfl
  constructor
  · intro h
    rw [modifyLeadByLeadId_trace env req lead rest h, hupd]
  · intro h
    unfold modifyLeadsByPhoneAndTag
    rw [h]
    unfold modifyLeadsLoop
    rcases hu : env.updateLeadTag lead.id
        (updatedTagsFor (lead.Tag.getD []) req.tag req.tagFilter) with e | u <;>
      rw [hupd] at hu <;> simp [hu, hupd]

/-- Witness for `workflows_missing_tags_as_empty` at the tagless lead
`leadNoTags`. -/
theorem workflows_missing_tags_as_empty_witness :
    (modifyLeadByLeadId crmEnvNoTags reqExample).1 =
      [("L2", [{ name := "status:contacted" }])] ∧
    (modifyLeadsByPhoneAndTag crmEnvNoTags reqExample).1.head? =
      some ("L2", [{ name := "status:contacted" }]) :=
  ⟨(workflows_missing_tags_as_empty crmEnvNoTags reqExample leadNoTags [] rfl).1 rfl,
   (workflows_missing_tags_as_empty crmEnvNoTags reqExample leadNoTags [] rfl).2 rfl⟩

/-- When every update in the batch succeeds, the loop issues exactly one
`updateLeadTag` call per lead, in sequence order, and returns `200`. -/
theorem modifyLeadsLoop_all_ok (env : CrmEnv) (req : ReqParams) (leads : List Lead)
    (hall : ∀ l ∈ leads, env.updateLeadTag l.id
      (updatedTagsFor (l.Tag.getD []) req.tag req.tagFilter) = .ok ()) :
    modifyLeadsLoop env req leads = (leads.map (leadUpdateCall req), .ok 200) := by
  induction leads with
  | nil => rfl
  | cons lead rest ih =>
      have h1 := hall lead (List.mem_cons_self _ _)
      have ih' := ih fun l hl => hall l (List.mem_cons_of_mem _ hl)
      simp [modifyLeadsLoop, h1, ih', leadUpdateCall]

/-- When the updates for `pre` succeed and the update for `bad` fails,
the loop issues the calls for `pre` and the failing call for `bad`, never
reaches the leads after `bad`, and propagates the error. -/
theorem modifyLeadsLoop_stops_at_failure (env : CrmEnv) (req : ReqParams)
    (pre : List Lead) (bad : Lead) (post : List Lead) (e : String)
    (hpre : ∀ l ∈ pre, env.updateLeadTag l.id
      (updatedTagsFor (l.Tag.getD []) req.tag req.tagFilter) = .ok ())
    (hbad : env.updateLeadTag bad.id
      (updatedTagsFor (bad.Tag.getD []) req.tag req.tagFilter) = .error e) :
    modifyLeadsLoop env req (pre ++ bad :: post) =
      (pre.map (leadUpdateCall req) ++ [leadUpdateCall req bad], .error e) := by
  induction pre with
  | nil => simp [modifyLeadsLoop, hbad, leadUpdateCall]
  | cons p ps ih =>
      have h1 := hpre p (List.mem_cons_self _ _)
      have ih' := ih fun l hl => hpre l (List.mem_cons_of_mem _ hl)
      simp [modifyLeadsLoop, h1, ih', leadUpdateCall]

/-- C5: when the search returns `leads`, the by-phone workflow issues one
`updateLeadTag` call per lead in sequence order and returns `200` iff all
succeed; when the update of `bad` fails after the successful `pre`
updates, the calls issued are exactly those for `pre` followed by the
failing one for `bad` — the leads in `post` are never attempted, the
error propagates, and no compensating call appears in the trace. -/
theorem modifyLeadsByPhoneAndTag_batch (env : CrmEnv) (req : ReqParams)
    (leads : List Lead) (h : env.findByPhone req.phone = .ok (some leads)) :
    ((∀ l ∈ leads, env.updateLeadTag l.id
        (updatedTagsFor (l.Tag.getD []) req.tag req.tagFilter) = .ok ()) →
      modifyLeadsByPhoneAndTag env req = (leads.map (leadUpdateCall req), .ok 200)) ∧
    (∀ pre bad post e, leads = pre ++ bad :: post →
      (∀ l ∈ pre, env.updateLeadTag l.id
        (updatedTagsFor (l.Tag.getD []) req.tag req.tagFilter) = .ok ()) →
      env.updateLeadTag bad.id
        (updatedTagsFor (bad.Tag.getD []) req.tag req.tagFilter) = .error e →
      modifyLeadsByPhoneAndTag env req =
        (pre.map (leadUpdateCall req) ++ [leadUpdateCall req bad], .error e)) := by
  constructor
  · intro hall
    unfold modifyLeadsByPhoneAndTag
    rw [h]
    exact modifyLeadsLoop_all_ok env req leads hall
  · intro pre bad post e hsplit hpre hbad
    subst hsplit
    unfold modifyLeadsByPhoneAndTag
    rw [h]
    exact modifyLeadsLoop_stops_at_failure env req pre bad post e hpre hbad

/-- First lead of the batch witness (update succeeds). -/
def leadB1 : Lead :=
  { id := "B1", Phone := "5551", Full_Name := "A", Tag := some [{ name := "status:new" }] }

/-- Second lead of the batch witness (its update fails). -/
def leadB2 : Lead :=
  { id := "B2", Phone := "5552", Full_Name := "B", Tag := some [] }

/-- Third lead of the batch witness (never reached). -/
def leadB3 : Lead :=
  { id := "B3", Phone := "5553", Full_Name := "C", Tag := none }

/-- CRM environment for the batch witness: the phone search returns three
leads and the update of lead `B2` fails. -/
def crmEnvBatchFail : CrmEnv :=
  { findByLeadId := fun _ => .ok none
    findByPhone := fun _ => .ok (some [leadB1, leadB2, leadB3])
    updateLeadTag := fun leadId _ =>
      if leadId = "B2" then .error "update failed" else .ok () }

/-- Witness for `modifyLeadsByPhoneAndTag_batch`: of three leads the
second update fails, so exactly the first two calls are issued and the
error propagates. -/
theorem modifyLeadsByPhoneAndTag_batch_witness :
    modifyLeadsByPhoneAndTag crmEnvBatchFail reqExample =
      ([leadUpdateCall reqExample leadB1, leadUpdateCall reqExample leadB2],
        .error "update failed") :=
  (modifyLeadsByPhoneAndTag_batch crmEnvBatchFail reqExample
      [leadB1, leadB2, leadB3] rfl).2 [leadB1] leadB2 [leadB3] "update failed" rfl
    (by
      intro l hl
      rw [List.mem_singleton] at hl
      subst hl
      rfl)
    rfl

/-- When the new tag's name itself starts with `tagFilter`, the rewrite
is idempotent: a second application removes the previously appended tag
and re-appends it, the result holds exactly one tag named `tag`, and
every tag matching the filter in the result is the appended one. -/
theorem updatedTagsFor_twice (tags : List Tag) (tag tagFilter : String)
    (hmatch : jsStartsWith tag tagFilter = true) :
    updatedTagsFor (updatedTagsFor tags tag tagFilter) tag tagFilter =
      updatedTagsFor tags tag tagFilter ∧
    List.count { name := tag }
      (updatedTagsFor (updatedTagsFor tags tag tagFilter) tag tagFilter) = 1 ∧
    ∀ t ∈ updatedTagsFor (updatedTagsFor tags tag tagFilter) tag tagFilter,
      jsStartsWith t.name tagFilter = true → t.name = tag := by
  have hfix : updatedTagsFor (updatedTagsFor tags tag tagFilter) tag tagFilter =
      updatedTagsFor tags tag tagFilter := by
    unfold updatedTagsFor
    rw [List.filter_append, List.filter_filter]
    simp [hmatch, List.filter]
  have hcount : List.count { name := tag }
      (updatedTagsFor tags tag tagFilter) = 1 := by
    unfold updatedTagsFor
    rw [List.count_append, List.count_singleton]
    have hzero : List.count ({ name := tag } : Tag)
        (tags.filter fun t => !(jsStartsWith t.name tagFilter)) = 0 := by
      rw [List.count_eq_zero]
      intro hmem
      have := (List.mem_filter.mp hmem).2
      rw [hmatch] at this
      simp at this
    rw [hzero]
    simp
  have hall : ∀ t ∈ updatedTagsFor tags tag tagFilter,
      jsStartsWith t.name tagFilter = true → t.name = tag := by
    intro t hmem hstart
    unfold updatedTagsFor at hmem
    rcases List.mem_append.mp hmem with hmem | hmem
    · have := (List.mem_filter.mp hmem).2
      rw [hstart] at this
      simp at this
    · rw [List.mem_singleton.mp hmem]
  rw [hfix]
  exact ⟨rfl, hcount, hall⟩

/-- C3 (amended): when `tag` itself starts with `tagFilter`, running the
by-id workflow twice — the second run fetching the tag list `W1` written
by the first — writes a tag list holding exactly one tag named `tag` and
no other tag starting with `tagFilter`. -/
theorem modifyLeadByLeadId_twice (env1 env2 : CrmEnv) (req : ReqParams)
    (lead1 lead2 : Lead) (r1 r2 : List Lead) (W1 : List Tag)
    (hmatch : jsStartsWith req.tag req.tagFilter = true)
    (h1 : env1.findByLeadId req.id = .ok (some (lead1 :: r1)))
    (hW1 : (modifyLeadByLeadId env1 req).1 = [(lead1.id, W1)])
    (h2 : env2.findByLeadId req.id = .ok (some (lead2 :: r2)))
    (hfetch : lead2.Tag = some W1) :
    (modifyLeadByLeadId env2 req).1 =
      [(lead2.id, updatedTagsFor W1 req.tag req.tagFilter)] ∧
    List.count { name := req.tag } (updatedTagsFor W1 req.tag req.tagFilter) = 1 ∧
    ∀ t ∈ updatedTagsFor W1 req.tag req.tagFilter,
      jsStartsWith t.name req.tagFilter = true → t.name = req.tag := by
  have htrace1 := modifyLeadByLeadId_trace env1 req lead1 r1 h1
  rw [hW1] at htrace1
  have hW1eq : W1 = updatedTagsFor (lead1.Tag.getD []) req.tag req.tagFilter := by
    simpa using htrace1
  have htrace2 := modifyLeadByLeadId_trace env2 req lead2 r2 h2
  rw [hfetch] at htrace2
  refine ⟨htrace2, ?_, ?_⟩
  · rw [hW1eq]
    exact (updatedTagsFor_twice _ _ _ hmatch).2.1
  · rw [hW1eq]
    exact (updatedTagsFor_twice _ _ _ hmatch).2.2

/-- Request used by the idempotence counterexample: the new tag `vip`
does not start with the filter `status:`. -/
def reqPlain : ReqParams :=
  { phone := "", tag := "vip", id := "L1", tagFilter := "status:" }

/-- Lead fetched by the first counterexample run: no tags yet. -/
def leadFirstRun : Lead :=
  { id := "L1", Phone := "", Full_Name := "", Tag := some [] }

/-- CRM environment of the first counterexample run. -/
def crmEnvRun1 : CrmEnv :=
  { findByLeadId := fun _ => .ok (some [leadFirstRun])
    findByPhone := fun _ => .ok none
    updateLeadTag := fun _ _ => .ok () }

/-- Lead fetched by the second counterexample run: it carries exactly the
tag list written by the first run. -/
def leadSecondRun : Lead :=
  { id := "L1", Phone := "", Full_Name := "", Tag := some [{ name := "vip" }] }

/-- CRM environment of the second counterexample run. -/
def crmEnvRun2 : CrmEnv :=
  { crmEnvRun1 with findByLeadId := fun _ => .ok (some [leadSecondRun]) }

/-- Counterexample to C3 as stated: with `tag := "vip"` and
`tagFilter := "status:"`, the first run writes one `vip` tag, and the
second run — fetching exactly that list — writes two `vip` tags, so the
final tag list does not hold exactly one tag equal to `tag`. -/
theorem modifyLeadByLeadId_twice_counterexample :
    (modifyLeadByLeadId crmEnvRun1 reqPlain).1 = [("L1", [{ name := "vip" }])] ∧
    leadSecondRun.Tag = some [{ name := "vip" }] ∧
    (modifyLeadByLeadId crmEnvRun2 reqPlain).1 =
      [("L1", [{ name := "vip" }, { name := "vip" }])] ∧
    List.count { name := "vip" }
      ([{ name := "vip" }, { name := "vip" }] : List Tag) ≠ 1 :=
  ⟨by decide, rfl, by decide, by decide⟩

/-- Second-run lead of the witness for the amended idempotence: it holds
the tag list the first run writes for `leadExample`. -/
def leadRerun : Lead :=
  { id := "L1"
    Phone := "5551234"
    Full_Name := "Jane Doe"
    Tag := some [{ name := "source:web" }, { name := "status:contacted" }] }

/-- CRM environment of the witness's second run. -/
def crmEnvRerun : CrmEnv :=
  { crmEnvOk with findByLeadId := fun _ => .ok (some [leadRerun]) }

/-- Witness for `modifyLeadByLeadId_twice` at the spec's example, where
`status:contacted` starts with `status:`. -/
theorem modifyLeadByLeadId_twice_witness :
    (modifyLeadByLeadId crmEnvRerun reqExample).1 =
      [("L1", updatedTagsFor [{ name := "source:web" }, { name := "status:contacted" }]
          "status:contacted" "status:")] ∧
    List.count { name := "status:contacted" }
      (updatedTagsFor [{ name := "source:web" }, { name := "status:contacted" }]
        "status:contacted" "status:") = 1 :=
  have h := modifyLeadByLeadId_twice crmEnvOk crmEnvRerun reqExample leadExample
    leadRerun [] [] [{ name := "source:web" }, { name := "status:contacted" }]
    (by decide) rfl (by decide) rfl rfl
  ⟨h.1, h.2.1⟩
